import Mathlib

/-!
Shallow embedding of the MindMate backend (src/backend/app.py).

Text is modelled as a list of characters so that substring reasoning is
direct.  Python string operations used by the code are embedded as
executable Lean functions over lists of characters:
  message.lower()        -> pyLower   (per-character lowercasing)
  keyword in message     -> containsSub (contiguous substring test)
  message.strip()        -> pyStrip   (drop whitespace from both ends)

The external Gemini dependency is an opaque collaborator: it is modelled
as a function from the sent prompt to an optional reply text, where none
means the call raised an exception (network error, malformed response,
missing credentials).  Flask request parsing is likewise external: the
outcome of request.get_json() is modelled by ReqBody below, and the
wall-clock timestamp field of the responses is omitted (the spec reads
responses modulo timestamp fields).
-/

namespace Mindmate

/-- Embedding of the Python method str.lower, applied per character. -/
def pyLower (s : List Char) : List Char := s.map Char.toLower

/-- Embedding of the Python substring test (the operator in on str):
needle occurs contiguously inside haystack. -/
def containsSub (needle : List Char) : List Char → Bool
  | [] => needle.isPrefixOf []
  | c :: t => needle.isPrefixOf (c :: t) || containsSub needle t

/-- Embedding of the Python method str.strip: remove whitespace from both
ends of the string. -/
def pyStrip (s : List Char) : List Char :=
  ((s.dropWhile Char.isWhitespace).reverse.dropWhile Char.isWhitespace).reverse

/-- The fixed keyword list DISTRESS_KEYWORDS of app.py, in source order. -/
def DISTRESS_KEYWORDS : List (List Char) :=
  [ "suicide".toList, "self-harm".toList, "kill myself".toList,
    "end it all".toList, "no point".toList,
    "hopeless".toList, "worthless".toList, "can\x27t take it".toList,
    "nobody cares".toList, "alone forever".toList,
    "scared".toList, "panic".toList, "terrified".toList,
    "panic attack".toList, "anxiety attack".toList,
    "abusive".toList, "abuse".toList, "assault".toList,
    "harassed".toList, "bullied".toList,
    "drug".toList, "drugs".toList, "alcohol".toList,
    "drinking".toList, "high".toList, "drunk".toList,
    "depressed".toList, "depression".toList, "suicidal".toList,
    "die".toList ]

/-- Embedding of detect_distress of app.py: lowercase the message, then
scan the keyword list, returning true on the first keyword that occurs as
a substring. -/
def detect_distress (message : List Char) : Bool :=
  DISTRESS_KEYWORDS.any (fun keyword => containsSub keyword (pyLower message))

/-- Correctness of the substring test: it decides the contiguous-substring
(infix) relation. -/
theorem containsSub_iff (needle haystack : List Char) :
    containsSub needle haystack = true ↔ needle <:+: haystack := by
  induction haystack with
  | nil =>
    simp [containsSub, List.isPrefixOf_iff_prefix, List.prefix_nil,
      List.infix_nil]
  | cons c t ih =>
    simp [containsSub, List.isPrefixOf_iff_prefix, ih, List.infix_cons_iff]

/-- Shared characterisation of detect_distress used by several theorems:
it returns true exactly when some keyword of the list is an infix of the
lowercased message. -/
theorem detect_distress_eq_true_iff (message : List Char) :
    detect_distress message = true ↔
      ∃ keyword ∈ DISTRESS_KEYWORDS, keyword <:+: pyLower message := by
  simp [detect_distress, List.any_eq_true, containsSub_iff]

/-- Result dictionary of generate_safety_warning of app.py. -/
structure SafetyInfo where
  warning : Bool
  message : List Char
  resources : List (List Char)
deriving DecidableEq

/-- Embedding of generate_safety_warning of app.py: a constant crisis
support payload. -/
def generate_safety_warning : SafetyInfo :=
  ⟨true,
   "I\x27m concerned about what you\x27re sharing. Please reach out to a trusted adult, school counselor, or a mental health professional. Your wellbeing truly matters. 💙".toList,
   [ "Talk to your college counseling center".toList,
     "National Suicide Prevention Lifeline: 988 (US)".toList,
     "Crisis Text Line: Text HOME to 741741".toList,
     "International Association for Suicide Prevention: https://www.iasp.info/resources/Crisis_Centres/".toList ]⟩

/-- The SYSTEM_PROMPT constant of app.py (persona preamble). -/
def SYSTEM_PROMPT : List Char :=
  ("You are MindMate, a compassionate AI friend supporting college students during stressful times. Your role is to listen, understand, and provide emotional support - NOT medical or therapeutic advice.\n\nYour behavior:\n1. **Listen First**: Acknowledge their feelings without judgment\n2. **Respond Gently**: Be warm, empathetic, and human-like\n3. **Ask Follow-ups**: Ask gentle questions to help them express themselves\n4. **Stay Within Bounds**: Never provide diagnosis, medical advice, or therapy\n5. **Be Supportive**: Validate their struggles, especially around academics and placements\n6. **Suggest Help When Needed**: If they express severe distress, suggest reaching out to a trusted adult or professional\n\nTone: Friendly, like a caring senior or friend - not robotic or clinical.\n\nExamples of good responses:\n- \"That sounds really stressful. Tell me, what part is bothering you the most?\"\n- \"It\x27s okay to feel overwhelmed sometimes. Many students go through this.\"\n- \"I hear you. Have you talked to anyone about this?\"\n\nTopics to be supportive about:\n- Placement anxiety and interview stress\n- Academic pressure and exam fear\n- Imposter syndrome and self-doubt\n- Social anxiety and loneliness\n- Career confusion and future uncertainty\n- Work-life balance and burnout\n\nDistress indicators to watch for:\n- Mentions of self-harm or suicide\n- Extreme hopelessness or despair\n- Severe anxiety or panic attacks\n- Substance abuse mentions\n- Abuse or trauma disclosure\n\nWhen distress is detected: Acknowledge their pain, suggest professional help, and provide this message:\n\"I\x27m concerned about what you\x27re going through. Please reach out to a trusted adult, school counselor, or a mental health professional. Your wellbeing matters. 💙\"\n\nKeep responses concise (2-3 sentences) unless more detail is needed. Be genuine.").toList

/-- The fallback reply returned by call_gemini_api when the external call
fails. -/
def FALLBACK_REPLY : List Char :=
  "I\x27m having trouble responding right now. Please try again in a moment. 💙".toList

/-- The full prompt built inside call_gemini_api: system prompt combined
with the user message. -/
def full_prompt (user_message : List Char) : List Char :=
  SYSTEM_PROMPT ++ "\n\nUser says: ".toList ++ user_message ++
    "\n\nRespond as MindMate:".toList

/-- Embedding of call_gemini_api of app.py.  The external Gemini service
is the parameter send, mapping the sent prompt to some reply text, or to
none when anything inside the try block raises.  On success the code
returns response.text.strip(); on any exception it returns the fixed
fallback string (the error is only logged). -/
def call_gemini_api (send : List Char → Option (List Char))
    (user_message : List Char) : List Char :=
  match send (full_prompt user_message) with
  | some text => pyStrip text
  | none => FALLBACK_REPLY

/-- Parsed JSON body of a /chat request, as the handler reads it: an
optional message field and an optional userId field.  A body that parses
to a JSON object lacking the message key is ⟨none, u⟩. -/
structure ChatData where
  message : Option (List Char)
  userId : Option (List Char)
deriving DecidableEq

/-- Outcome of request.get_json() inside the chat handler, modelling the
Flask collaborator: unparseable means get_json raised (Flask raises a
BadRequest exception on a malformed JSON body, and that exception is an
ordinary Exception caught by the except clause of the handler); parsed
none means get_json returned a falsy value (absent or null body); parsed
(some d) means it returned an object d. -/
inductive ReqBody where
  | unparseable : ReqBody
  | parsed : Option ChatData → ReqBody

/-- JSON body and status of a /chat response.  Fields that a given branch
of the handler does not emit are none; the reply field is emitted by every
branch, so reply = none models the JSON value null.  The timestamp field
is omitted (spec compares responses modulo timestamp). -/
structure ChatResponse where
  status : Nat
  error : Option (List Char)
  reply : Option (List Char)
  warning : Option Bool
  safetyMessage : Option (List Char)
  resources : Option (List (List Char))
  userId : Option (List Char)
deriving DecidableEq

/-- Error string of the missing-message 400 response. -/
def MISSING_FIELD_ERROR : List Char := "Missing \x27message\x27 field".toList

/-- Error string of the empty-message 400 response. -/
def EMPTY_MESSAGE_ERROR : List Char := "Message cannot be empty".toList

/-- Error string of the too-long 400 response. -/
def TOO_LONG_ERROR : List Char :=
  "Message is too long (max 5000 characters)".toList

/-- Embedding of the chat handler of app.py (POST /chat).  The body
argument is the outcome of request.get_json(); send is the external
Gemini collaborator threaded through to call_gemini_api. -/
def chat (body : ReqBody) (send : List Char → Option (List Char)) :
    ChatResponse :=
  match body with
  | ReqBody.unparseable =>
      ⟨500, some "Internal server error".toList,
       some "Sorry, I encountered an error. Please try again. 💙".toList,
       none, none, none, none⟩
  | ReqBody.parsed none =>
      ⟨400, some MISSING_FIELD_ERROR, none, none, none, none, none⟩
  | ReqBody.parsed (some d) =>
    match d.message with
    | none => ⟨400, some MISSING_FIELD_ERROR, none, none, none, none, none⟩
    | some raw =>
      let user_message := pyStrip raw
      let user_id := d.userId.getD "anonymous".toList
      if user_message.length = 0 then
        ⟨400, some EMPTY_MESSAGE_ERROR, none, none, none, none, none⟩
      else if user_message.length > 5000 then
        ⟨400, some TOO_LONG_ERROR, none, none, none, none, none⟩
      else
        let distress_detected := detect_distress user_message
        if distress_detected then
          let ai_response := call_gemini_api send user_message
          let safety_info := generate_safety_warning
          ⟨200, none, some ai_response, some safety_info.warning,
           some safety_info.message, some safety_info.resources,
           some user_id⟩
        else
          let ai_response := call_gemini_api send user_message
          ⟨200, none, some ai_response, some false, none, none,
           some user_id⟩

/-- Helper: dropWhile keeps a replicate of a non-matching character. -/
theorem dropWhile_replicate_of_not (p : Char → Bool) (c : Char) (n : Nat)
    (h : p c = false) :
    List.dropWhile p (List.replicate n c) = List.replicate n c := by
  cases n with
  | zero => rfl
  | succ k => simp [List.replicate_succ, List.dropWhile_cons, h]

/-- Helper: dropWhile skips a block whose characters all match. -/
theorem dropWhile_append_of_forall (p : Char → Bool) (l₁ l₂ : List Char)
    (h : ∀ c ∈ l₁, p c = true) :
    List.dropWhile p (l₁ ++ l₂) = List.dropWhile p l₂ := by
  induction l₁ with
  | nil => rfl
  | cons a t ih =>
    have ha : p a = true := h a (List.mem_cons_self a t)
    rw [List.cons_append, List.dropWhile_cons, if_pos ha]
    exact ih fun c hc => h c (List.mem_cons_of_mem a hc)

/-- Helper: stripping a fully-whitespace string yields the empty string. -/
theorem pyStrip_eq_nil_of_forall_ws (m : List Char)
    (h : ∀ c ∈ m, c.isWhitespace = true) : pyStrip m = [] := by
  unfold pyStrip
  rw [List.dropWhile_eq_nil_iff.mpr h]
  rfl

/-- Helper: stripping a replicate of a non-whitespace character is the
identity. -/
theorem pyStrip_replicate_of_not_ws (c : Char) (n : Nat)
    (h : c.isWhitespace = false) :
    pyStrip (List.replicate n c) = List.replicate n c := by
  unfold pyStrip
  rw [dropWhile_replicate_of_not _ _ _ h, List.reverse_replicate,
    dropWhile_replicate_of_not _ _ _ h, List.reverse_replicate]

/-- Helper: a non-whitespace character followed by trailing whitespace
strips to just that character. -/
theorem pyStrip_cons_replicate (c w : Char) (n : Nat)
    (hc : c.isWhitespace = false) (hw : w.isWhitespace = true) :
    pyStrip (c :: List.replicate n w) = [c] := by
  unfold pyStrip
  rw [List.dropWhile_cons, if_neg (by simp [hc]), List.reverse_cons,
    List.reverse_replicate,
    dropWhile_append_of_forall _ _ _
      (fun x hx => by rw [List.eq_of_mem_replicate hx]; exact hw),
    List.dropWhile_cons, if_neg (by simp [hc])]
  rfl

/-- Helper: the chat handler on an input that passes all three validation
checks, written as a single branch on the distress classifier. -/
theorem chat_valid_eq (m : List Char) (u : Option (List Char))
    (send : List Char → Option (List Char))
    (hne : pyStrip m ≠ []) (hlen : (pyStrip m).length ≤ 5000) :
    chat (ReqBody.parsed (some ⟨some m, u⟩)) send =
      if detect_distress (pyStrip m) then
        ⟨200, none, some (call_gemini_api send (pyStrip m)),
         some generate_safety_warning.warning,
         some generate_safety_warning.message,
         some generate_safety_warning.resources,
         some (u.getD "anonymous".toList)⟩
      else
        ⟨200, none, some (call_gemini_api send (pyStrip m)), some false,
         none, none, some (u.getD "anonymous".toList)⟩ := by
  have h0 : ¬ (pyStrip m).length = 0 := fun h => hne (List.length_eq_zero.mp h)
  have h5 : ¬ (pyStrip m).length > 5000 := by omega
  simp only [chat, if_neg h0, if_neg h5]

/-- Helper: the chat handler on a message that is empty after stripping. -/
theorem chat_empty_eq (m : List Char) (u : Option (List Char))
    (send : List Char → Option (List Char)) (h : pyStrip m = []) :
    chat (ReqBody.parsed (some ⟨some m, u⟩)) send =
      ⟨400, some EMPTY_MESSAGE_ERROR, none, none, none, none, none⟩ := by
  simp [chat, h]

/-- C1: detect_distress message is true exactly when the lowercased
message contains at least one keyword of the fixed DISTRESS_KEYWORDS list
as a contiguous substring, and the empty message yields false.  The
function is a pure Lean function, hence deterministic. -/
theorem detect_distress_correct :
    (∀ message : List Char, detect_distress message = true ↔
      ∃ keyword ∈ DISTRESS_KEYWORDS, keyword <:+: pyLower message) ∧
    detect_distress [] = false :=
  ⟨detect_distress_eq_true_iff, by decide⟩

/-- C9: distress classification is monotone under message extension: a
message that triggers the classifier still triggers it inside any
surrounding context p ++ m ++ s. -/
theorem detect_distress_monotone (p m s : List Char)
    (h : detect_distress m = true) :
    detect_distress (p ++ m ++ s) = true := by
  rw [detect_distress_eq_true_iff] at h ⊢
  obtain ⟨kw, hmem, hinf⟩ := h
  refine ⟨kw, hmem, ?_⟩
  have hmap : pyLower (p ++ m ++ s) = pyLower p ++ pyLower m ++ pyLower s := by
    simp [pyLower]
  rw [hmap]
  exact hinf.trans (List.infix_append _ _ _)

/-- Witness for C9 at a concrete input. -/
theorem detect_distress_monotone_witness :
    detect_distress "abc ".toList = detect_distress "abc ".toList ∧
    detect_distress ("abc ".toList ++ "suicide".toList ++ " xyz".toList) =
      true :=
  ⟨rfl, detect_distress_monotone "abc ".toList "suicide".toList
    " xyz".toList (by decide)⟩

/-- C5: generate_safety_warning takes no input and returns a constant
structure with a non-empty supportive message and an ordered resource
list of four non-empty entries (hence at least three).  Being a constant
definition, it is the same across calls. -/
theorem generate_safety_warning_constant :
    generate_safety_warning.warning = true ∧
    generate_safety_warning.message ≠ [] ∧
    3 ≤ generate_safety_warning.resources.length ∧
    generate_safety_warning.resources.length = 4 ∧
    (∀ r ∈ generate_safety_warning.resources, r ≠ []) := by decide

/-- C2: when the external generation call fails (the collaborator returns
none for the sent prompt, standing for any raised exception),
call_gemini_api returns the fixed non-empty fallback string instead of
propagating the failure, and a POST /chat carrying a valid message still
answers HTTP 200 with that fallback reply, not a 5xx. -/
theorem call_gemini_api_fallback (m : List Char) (u : Option (List Char))
    (send : List Char → Option (List Char))
    (hfail : send (full_prompt (pyStrip m)) = none)
    (hne : pyStrip m ≠ []) (hlen : (pyStrip m).length ≤ 5000) :
    call_gemini_api send (pyStrip m) = FALLBACK_REPLY ∧
    FALLBACK_REPLY ≠ [] ∧
    (chat (ReqBody.parsed (some ⟨some m, u⟩)) send).status = 200 ∧
    (chat (ReqBody.parsed (some ⟨some m, u⟩)) send).reply =
      some FALLBACK_REPLY := by
  have hapi : call_gemini_api send (pyStrip m) = FALLBACK_REPLY := by
    unfold call_gemini_api
    rw [hfail]
  rw [chat_valid_eq m u send hne hlen]
  refine ⟨hapi, by decide, ?_, ?_⟩ <;>
    cases detect_distress (pyStrip m) <;> simp [hapi]

/-- Witness for C2 at a concrete input with the collaborator down. -/
theorem call_gemini_api_fallback_witness :
    ((fun _ : List Char => (none : Option (List Char)))
        (full_prompt (pyStrip "Hello".toList)) = none) ∧
    pyStrip "Hello".toList ≠ [] ∧
    (pyStrip "Hello".toList).length ≤ 5000 ∧
    (chat (ReqBody.parsed (some ⟨some "Hello".toList, none⟩))
        (fun _ => none)).status = 200 ∧
    (chat (ReqBody.parsed (some ⟨some "Hello".toList, none⟩))
        (fun _ => none)).reply = some FALLBACK_REPLY := by
  have h := call_gemini_api_fallback "Hello".toList none (fun _ => none)
    rfl (by decide) (by decide)
  exact ⟨rfl, by decide, by decide, h.2.2.1, h.2.2.2⟩

/-- C3: on every successful 200 /chat response the warning flag equals the
distress classification of the trimmed message, and the safetyMessage and
resources fields are present exactly when that flag is true (absent
exactly when it is false). -/
theorem chat_warning_safety_fields (m : List Char) (u : Option (List Char))
    (send : List Char → Option (List Char))
    (hne : pyStrip m ≠ []) (hlen : (pyStrip m).length ≤ 5000) :
    (chat (ReqBody.parsed (some ⟨some m, u⟩)) send).status = 200 ∧
    (chat (ReqBody.parsed (some ⟨some m, u⟩)) send).warning =
      some (detect_distress (pyStrip m)) ∧
    (((chat (ReqBody.parsed (some ⟨some m, u⟩)) send).safetyMessage.isSome ∧
      (chat (ReqBody.parsed (some ⟨some m, u⟩)) send).resources.isSome) ↔
      detect_distress (pyStrip m) = true) ∧
    (((chat (ReqBody.parsed (some ⟨some m, u⟩)) send).safetyMessage = none ∧
      (chat (ReqBody.parsed (some ⟨some m, u⟩)) send).resources = none) ↔
      detect_distress (pyStrip m) = false) := by
  rw [chat_valid_eq m u send hne hlen]
  cases detect_distress (pyStrip m) <;>
    simp [generate_safety_warning]

/-- Witness for C3 at a concrete distress-positive input. -/
theorem chat_warning_safety_fields_witness :
    pyStrip "I feel hopeless".toList ≠ [] ∧
    (pyStrip "I feel hopeless".toList).length ≤ 5000 ∧
    (chat (ReqBody.parsed (some ⟨some "I feel hopeless".toList, none⟩))
        (fun _ => some "ok".toList)).warning =
      some (detect_distress (pyStrip "I feel hopeless".toList)) := by
  have h := chat_warning_safety_fields "I feel hopeless".toList none
    (fun _ => some "ok".toList) (by decide) (by decide)
  exact ⟨by decide, by decide, h.2.1⟩

/-- C4: on every request that passes validation the generation client is
invoked with the trimmed message (call_gemini_api sends the prompt built
from pyStrip m) and its result is the reply of the 200 response on both
the distress and the non-distress branch. -/
theorem chat_reply_always_generated (m : List Char) (u : Option (List Char))
    (send : List Char → Option (List Char))
    (hne : pyStrip m ≠ []) (hlen : (pyStrip m).length ≤ 5000) :
    (chat (ReqBody.parsed (some ⟨some m, u⟩)) send).status = 200 ∧
    (chat (ReqBody.parsed (some ⟨some m, u⟩)) send).reply =
      some (call_gemini_api send (pyStrip m)) := by
  rw [chat_valid_eq m u send hne hlen]
  cases detect_distress (pyStrip m) <;> simp

/-- Witness for C4 at a concrete input. -/
theorem chat_reply_always_generated_witness :
    pyStrip "I am stressed".toList ≠ [] ∧
    (pyStrip "I am stressed".toList).length ≤ 5000 ∧
    (chat (ReqBody.parsed (some ⟨some "I am stressed".toList, none⟩))
        (fun _ => some "ok".toList)).reply =
      some (call_gemini_api (fun _ => some "ok".toList)
        (pyStrip "I am stressed".toList)) := by
  have h := chat_reply_always_generated "I am stressed".toList none
    (fun _ => some "ok".toList) (by decide) (by decide)
  exact ⟨by decide, by decide, h.2⟩

/-- C6 counterexample: a request body on which JSON parsing raises (Flask
get_json raises on a malformed body; the except clause of the handler
catches it) is answered with HTTP 500 and a textual reply, not with the
claimed HTTP 400 and null reply. -/
theorem chat_unparseable_counterexample :
    (chat ReqBody.unparseable (fun _ => none)).status = 500 ∧
    ¬ ((chat ReqBody.unparseable (fun _ => none)).status = 400 ∧
       (chat ReqBody.unparseable (fun _ => none)).reply = none) := by decide

/-- C6 amended: a request whose body is absent (parses to a falsy value)
or lacks a message field gets HTTP 400 with a null reply and an error
naming the missing field; a body on which JSON parsing raises instead
reaches the generic handler and gets HTTP 500. -/
theorem chat_missing_message_field (u : Option (List Char))
    (send : List Char → Option (List Char)) :
    chat (ReqBody.parsed none) send =
      ⟨400, some MISSING_FIELD_ERROR, none, none, none, none, none⟩ ∧
    chat (ReqBody.parsed (some ⟨none, u⟩)) send =
      ⟨400, some MISSING_FIELD_ERROR, none, none, none, none, none⟩ ∧
    (chat ReqBody.unparseable send).status = 500 :=
  ⟨rfl, rfl, rfl⟩

/-- C7: a message that is empty after trimming is rejected with HTTP 400
and a null reply; the whole response is a constant independent of the
generation collaborator, so neither the classifier output nor the
generation client shows up in it. -/
theorem chat_empty_message_rejected (m : List Char) (u : Option (List Char))
    (send : List Char → Option (List Char)) (h : pyStrip m = []) :
    chat (ReqBody.parsed (some ⟨some m, u⟩)) send =
      ⟨400, some EMPTY_MESSAGE_ERROR, none, none, none, none, none⟩ :=
  chat_empty_eq m u send h

/-- Witness for C7 at a concrete whitespace-only input. -/
theorem chat_empty_message_rejected_witness :
    pyStrip "   ".toList = [] ∧
    chat (ReqBody.parsed (some ⟨some "   ".toList, none⟩)) (fun _ => none) =
      ⟨400, some EMPTY_MESSAGE_ERROR, none, none, none, none, none⟩ :=
  ⟨by decide, chat_empty_message_rejected "   ".toList none (fun _ => none)
    (by decide)⟩

/-- C8: a message longer than 5000 characters after trimming is rejected
with HTTP 400, a null reply and the error string naming the 5000-character
limit.  The handler checks the length of the trimmed message, in keeping
with the validation order of the spec. -/
theorem chat_too_long_rejected (m : List Char) (u : Option (List Char))
    (send : List Char → Option (List Char))
    (h : 5000 < (pyStrip m).length) :
    chat (ReqBody.parsed (some ⟨some m, u⟩)) send =
      ⟨400, some TOO_LONG_ERROR, none, none, none, none, none⟩ := by
  have h0 : ¬ (pyStrip m).length = 0 := by omega
  simp only [chat, if_neg h0, if_pos h]

/-- Witness for C8 at a concrete 5001-character input. -/
theorem chat_too_long_rejected_witness :
    5000 < (pyStrip (List.replicate 5001 ('a'))).length ∧
    chat (ReqBody.parsed (some ⟨some (List.replicate 5001 ('a')), none⟩))
        (fun _ => none) =
      ⟨400, some TOO_LONG_ERROR, none, none, none, none, none⟩ := by
  have h : 5000 < (pyStrip (List.replicate 5001 ('a'))).length := by
    rw [pyStrip_replicate_of_not_ws _ _ (by decide), List.length_replicate]
    omega
  exact ⟨h, chat_too_long_rejected _ none (fun _ => none) h⟩

/-- C10: validation runs trim, then emptiness, then length, and the length
cap applies to the trimmed message: a raw message over 5000 characters
that trims to a non-empty message of at most 5000 characters is accepted
with HTTP 200, while an over-5000-character all-whitespace message is
rejected with the empty-message error, not the too-long error. -/
theorem chat_validation_order (m : List Char) (u : Option (List Char))
    (send : List Char → Option (List Char)) :
    (5000 < m.length → pyStrip m ≠ [] → (pyStrip m).length ≤ 5000 →
      (chat (ReqBody.parsed (some ⟨some m, u⟩)) send).status = 200) ∧
    (5000 < m.length → (∀ c ∈ m, c.isWhitespace = true) →
      chat (ReqBody.parsed (some ⟨some m, u⟩)) send =
        ⟨400, some EMPTY_MESSAGE_ERROR, none, none, none, none, none⟩) := by
  constructor
  · intro _ hne hlen
    rw [chat_valid_eq m u send hne hlen]
    cases detect_distress (pyStrip m) <;> simp
  · intro _ hws
    exact chat_empty_eq m u send (pyStrip_eq_nil_of_forall_ws m hws)

/-- Witness for C10: a 5001-character raw message trimming to one
character is accepted, and a 5001-character all-whitespace message gets
the empty-message rejection. -/
theorem chat_validation_order_witness :
    (5000 < (('a') :: List.replicate 5000 (' ')).length ∧
     pyStrip (('a') :: List.replicate 5000 (' ')) ≠ [] ∧
     (pyStrip (('a') :: List.replicate 5000 (' '))).length ≤ 5000 ∧
     (chat (ReqBody.parsed
         (some ⟨some (('a') :: List.replicate 5000 (' ')), none⟩))
        (fun _ => none)).status = 200) ∧
    (5000 < (List.replicate 5001 (' ')).length ∧
     chat (ReqBody.parsed (some ⟨some (List.replicate 5001 (' ')), none⟩))
        (fun _ => none) =
       ⟨400, some EMPTY_MESSAGE_ERROR, none, none, none, none, none⟩) := by
  have hstrip : pyStrip (('a') :: List.replicate 5000 (' ')) = [('a')] :=
    pyStrip_cons_replicate ('a') (' ') 5000 (by decide) (by decide)
  have hlen1 : 5000 < (('a') :: List.replicate 5000 (' ')).length := by
    rw [List.length_cons, List.length_replicate]
    omega
  have hlen2 : 5000 < (List.replicate 5001 (' ')).length := by
    rw [List.length_replicate]
    omega
  have hws : ∀ c ∈ List.replicate 5001 (' '), c.isWhitespace = true := by
    intro c hc
    rw [List.eq_of_mem_replicate hc]
    decide
  refine ⟨⟨hlen1, by rw [hstrip]; decide, by rw [hstrip]; decide, ?_⟩,
    hlen2, ?_⟩
  · exact (chat_validation_order _ none (fun _ => none)).1 hlen1
      (by rw [hstrip]; decide) (by rw [hstrip]; decide)
  · exact (chat_validation_order _ none (fun _ => none)).2 hlen2 hws

end Mindmate
